import Mathlib

/-!
Verification of the `/api/audit` POST handler of the ai-audit monorepo
(`apps/api/src/app/api/audit/route.ts`) together with the response shapes
from `packages/types/index.ts`.

The handler is embedded as a pure function of
  * an environment (the `OPENAI_API_KEY` variable, possibly unset),
  * a completion oracle modelling `openai.chat.completions.create`
    (it may return a first-choice content, throw a structured
    `OpenAI.APIError`, throw a plain `Error`, or throw a non-`Error` value),
  * the request body, given as the outcome of `req.json()`: either a parsed
    JSON value or the message of the thrown `SyntaxError`.
JavaScript semantics that matter here (truthiness, `typeof`, destructuring
of `null`, `String.prototype.trim`, template literals, `x || y` defaulting)
are modelled explicitly below.
-/

/-- JSON values, as produced by `req.json()`.  Numbers are modelled as `Int`;
no claim depends on non-integral numbers (any non-string `contractCode` is
rejected by the handler regardless of its numeric value). -/
inductive Json where
  | null : Json
  | bool (b : Bool) : Json
  | num (n : Int) : Json
  | str (s : String) : Json
  | arr (xs : List Json) : Json
  | obj (fields : List (String × Json)) : Json

/-- `AuditReport` from `packages/types/index.ts`: `aiAudit?: string`. -/
structure AuditReport where
  aiAudit : Option String
  deriving DecidableEq

/-- `AuditResponse` from `packages/types/index.ts`:
`success: boolean; results?: AuditReport; error?: string`. -/
structure AuditResponse where
  success : Bool
  results : Option AuditReport
  error : Option String
  deriving DecidableEq

/-- The pair produced by `NextResponse.json(body, \x7b status \x7d)`:
an HTTP status code together with the JSON envelope. -/
structure HttpResult where
  status : Nat
  body : AuditResponse
  deriving DecidableEq

/-- The process environment: the `OPENAI_API_KEY` variable
(`none` when the variable is absent). -/
structure Env where
  apiKey : Option String

/-- `!process.env.OPENAI_API_KEY` is true when the variable is unset or set
to the empty string (both are falsy in JavaScript); `keyConfigured` is the
negation of that guard. -/
def keyConfigured (env : Env) : Bool :=
  match env.apiKey with
  | none => false
  | some s => !(s == "")

/-- Outcome of the call `openai.chat.completions.create(...)`:
  * `ok c` — the call resolved and `completion.choices[0]?.message?.content`
    optional-chained to `c` (`none` when a link was missing or `null`);
  * `apiError st nm m` — the call threw `OpenAI.APIError` with `status` `st`
    (possibly `undefined`), `name` `nm`, `message` `m`;
  * `errorThrow m` — the call threw a plain `Error` with message `m`;
  * `otherThrow` — the call threw a value that is not an `Error`. -/
inductive CompletionResult where
  | ok (content : Option String) : CompletionResult
  | apiError (status : Option Nat) (name : String) (msg : String) : CompletionResult
  | errorThrow (msg : String) : CompletionResult
  | otherThrow : CompletionResult

/-- Values that can be thrown to (and caught at) the handler boundary. -/
inductive Thrown where
  | syntaxErr (msg : String) : Thrown
  | apiErr (status : Option Nat) (name : String) (msg : String) : Thrown
  | err (msg : String) : Thrown
  | other : Thrown

/-- `String.prototype.trim`: strip whitespace from both ends.
(JavaScript trims the full Unicode whitespace set; the claims only involve
ASCII whitespace, covered by `Char.isWhitespace`.) -/
def jsTrim (s : String) : String :=
  String.mk
    (((s.toList.dropWhile Char.isWhitespace).reverse.dropWhile Char.isWhitespace).reverse)

/-- JavaScript truthiness test `!x` on an optional JSON value
(`none` models `undefined`). -/
def jsFalsy : Option Json → Bool
  | none => true
  | some Json.null => true
  | some (Json.bool b) => !b
  | some (Json.num n) => n == 0
  | some (Json.str s) => s == ""
  | some (Json.arr _) => false
  | some (Json.obj _) => false

/-- `typeof x === "string"` on an optional JSON value. -/
def jsTypeofString : Option Json → Bool
  | some (Json.str _) => true
  | _ => false

/-- The string held by an optional JSON value; only consulted on values that
passed the `typeof x === "string"` test. -/
def strOf : Option Json → String
  | some (Json.str s) => s
  | _ => ""

/-- Property lookup on a parsed JSON object: `JSON.parse` keeps the last of
duplicate keys, so the lookup takes the last matching field. -/
def lookupLast (fields : List (String × Json)) (k : String) : Option Json :=
  fields.foldl (fun acc kv => if kv.1 == k then some kv.2 else acc) none

/-- `const \x7b contractCode \x7d = body`: destructuring a JavaScript value.
On `null` this throws a `TypeError` (an `Error`); V8 words it
"Cannot destructure property ... as it is null.".  On any other non-object
value the property is `undefined`. -/
def destructureContract : Json → Except String (Option Json)
  | Json.null =>
      Except.error "Cannot destructure property contractCode of body as it is null."
  | Json.obj fields => Except.ok (lookupLast fields "contractCode")
  | _ => Except.ok none

/-- `!content` for the extracted completion text: true for a missing/`null`
link in the optional chain and for the empty string. -/
def contentFalsy : Option String → Bool
  | none => true
  | some s => s == ""

/-- The extracted completion text (only consulted when `contentFalsy` is
false, hence on `some` of a non-empty string). -/
def contentOf : Option String → String
  | some s => s
  | none => ""

/-- Whether the first list is a leading segment of the second. -/
def leadSeg : List Char → List Char → Bool
  | [], _ => true
  | _ :: _, [] => false
  | a :: as, b :: bs => a == b && leadSeg as bs

/-- Whether the first list occurs contiguously inside the second. -/
def occursInL (p : List Char) : List Char → Bool
  | [] => leadSeg p []
  | b :: bs => leadSeg p (b :: bs) || occursInL p bs

/-- `s.includes(pat)`: substring containment. -/
def strIncludes (s pat : String) : Bool :=
  occursInL pat.toList s.toList

/-- `error.status || 500`: JavaScript `||` takes the right operand on a falsy
left operand (`undefined` or `0`). -/
def jsOrStatus : Option Nat → Nat
  | none => 500
  | some n => if n == 0 then 500 else n

/-- `$\x7berror.status\x7d` inside a template literal: `undefined` prints as
the string "undefined". -/
def showStatus : Option Nat → String
  | none => "undefined"
  | some n => toString n

/-- The part of the prompt template literal before `$\x7bcontractCode\x7d`
(route.ts lines 50–80), verbatim including indentation and blank lines. -/
def promptHead : String := "
        Act as an expert Solidity smart contract security auditor.
        Analyze the following Solidity code for vulnerabilities, security risks, and deviations from best practices. Your analysis should be thorough.

        Identify specific issues including, but not limited to:
        - Reentrancy (Checks, Effects, Interactions pattern)
        - Integer Overflow/Underflow (using SafeMath or Solidity >=0.8.0)
        - Access Control Issues (modifier usage, ownership, authorization logic)
        - Gas Limit Issues / Denial of Service (DoS) vectors (unbounded loops, gas griefing)
        - Timestamp Dependence / Block Variable Reliance (block.timestamp, block.number)
        - Unchecked External Calls / Return Values (call, delegatecall, staticcall)
        - Front-Running Vulnerabilities (e.g., in token approvals, order books)
        - Oracle Manipulation risks
        - Improper Handling or Locking of Ether/Tokens
        - Use of deprecated Solidity features or unsafe practices (e.g., tx.origin)
        - Logic errors leading to unintended state changes or behavior
        - Precision issues with fixed-point numbers or division
        - Delegatecall vulnerabilities

        For each issue found:
        1.  **Vulnerability/Risk:** Clearly describe the issue.
        2.  **Location:** Reference the specific function name(s) and approximate line number(s) if possible.
        3.  **Impact:** Explain the potential negative consequences.
        4.  **Recommendation:** Suggest a concrete mitigation strategy or code fix.
        5.  **Severity:** Assign a severity level (e.g., Critical, High, Medium, Low, Informational).

        Structure your response clearly. If no significant issues are found, state that clearly, but still mention any minor best practice recommendations or areas for gas optimization if applicable.

        Solidity Code to Audit:
        ```solidity
        "

/-- The part of the prompt template literal after `$\x7bcontractCode\x7d`
(route.ts lines 80–84), verbatim. -/
def promptTail : String := "
        ```

        Audit Report:
        "

/-- The prompt template literal of route.ts lines 50–84: head, the raw
contract text substituted at the single interpolation point, tail
(a template literal is the concatenation of its parts). -/
def promptOf (contractCode : String) : String :=
  promptHead ++ contractCode ++ promptTail

/-- `s.startsWith(pat)`. -/
def startsWithStr (s pat : String) : Bool :=
  leadSeg pat.toList s.toList

/-- `s.endsWith(pat)`. -/
def endsWithStr (s pat : String) : Bool :=
  leadSeg pat.toList.reverse s.toList.reverse

/-- Lines 117–143: the `catch` block, mapping a thrown value to the HTTP
status and the failure envelope. -/
def handleCatch : Thrown → HttpResult
  | Thrown.syntaxErr m =>
      if strIncludes m "JSON" then
        ⟨400, ⟨false, none, some "Bad Request: Invalid JSON format in request body."⟩⟩
      else
        ⟨500, ⟨false, none, some ("Internal Server Error: " ++ m)⟩⟩
  | Thrown.apiErr st nm m =>
      ⟨jsOrStatus st,
        ⟨false, none,
          some ("OpenAI API Error: " ++ showStatus st ++ " " ++ nm ++ " " ++ m)⟩⟩
  | Thrown.err m =>
      ⟨500, ⟨false, none, some ("Internal Server Error: " ++ m)⟩⟩
  | Thrown.other =>
      ⟨500, ⟨false, none, some "An unexpected error occurred."⟩⟩

/-- The POST handler of route.ts lines 20–145.  `body` is the outcome of
`req.json()`: `Except.error m` models a thrown `SyntaxError` with message
`m` (Node's JSON parse errors; their messages contain "JSON"). -/
def POST (env : Env) (oracle : String → CompletionResult)
    (body : Except String Json) : HttpResult :=
  if !keyConfigured env then
    ⟨500, ⟨false, none, some "Server configuration error: Missing API key."⟩⟩
  else
    match body with
    | Except.error m => handleCatch (Thrown.syntaxErr m)
    | Except.ok j =>
      match destructureContract j with
      | Except.error m => handleCatch (Thrown.err m)
      | Except.ok v =>
        if jsFalsy v || !jsTypeofString v || (jsTrim (strOf v) == "") then
          ⟨400, ⟨false, none,
            some "Bad Request: Missing or invalid contractCode in request body."⟩⟩
        else
          match oracle (promptOf (strOf v)) with
          | CompletionResult.ok c =>
            if contentFalsy c then
              handleCatch (Thrown.err "Received empty response from AI analysis.")
            else
              ⟨200, ⟨true, some ⟨some (jsTrim (contentOf c))⟩, none⟩⟩
          | CompletionResult.apiError st nm m => handleCatch (Thrown.apiErr st nm m)
          | CompletionResult.errorThrow m => handleCatch (Thrown.err m)
          | CompletionResult.otherThrow => handleCatch Thrown.other

set_option maxRecDepth 8000

/-! ### Helper lemmas -/

/-- Every branch of the catch block yields a failure envelope: `success` is
false, an error message is present, and no results are attached. -/
theorem handleCatch_fail (t : Thrown) :
    (handleCatch t).body.success = false ∧
    ((handleCatch t).body.error).isSome = true ∧
    (handleCatch t).body.results = none := by
  cases t with
  | syntaxErr m =>
    by_cases h : strIncludes m "JSON" = true
    · simp [handleCatch, h]
    · simp [handleCatch, h]
  | apiErr st nm m => simp [handleCatch]
  | err m => simp [handleCatch]
  | other => simp [handleCatch]

theorem leadSeg_append_self (p rest : List Char) : leadSeg p (p ++ rest) = true := by
  induction p with
  | nil => rfl
  | cons a as ih => simp [leadSeg, ih]

theorem occursInL_middle (p x y : List Char) : occursInL p (x ++ p ++ y) = true := by
  induction x with
  | nil =>
    cases p with
    | nil =>
      cases y with
      | nil => rfl
      | cons b bs => simp [occursInL, leadSeg]
    | cons a as =>
      simp only [List.nil_append, occursInL, Bool.or_eq_true]
      left
      simpa [leadSeg] using leadSeg_append_self as y
  | cons b bs ih =>
    simp only [List.cons_append, occursInL, Bool.or_eq_true]
    exact Or.inr ih

theorem toList_append (s t : String) : (s ++ t).toList = s.toList ++ t.toList := by
  cases s
  cases t
  rfl

/-! ### Claim theorems -/

/-- C3: when the `OPENAI_API_KEY` environment variable is absent, the handler
returns 500 with the configuration-failure envelope, for every request body
(parsed or malformed) and every completion-API behaviour — in particular the
body is never parsed and the completion API is never invoked. -/
theorem audit_missing_key_500 (env : Env) (oracle : String → CompletionResult)
    (body : Except String Json) (h : env.apiKey = none) :
    POST env oracle body =
      ⟨500, ⟨false, none, some "Server configuration error: Missing API key."⟩⟩ := by
  simp [POST, keyConfigured, h]

theorem audit_missing_key_500_witness :
    (⟨none⟩ : Env).apiKey = none ∧
    POST ⟨none⟩ (fun _ => CompletionResult.ok (some "report"))
        (Except.ok (Json.obj [("contractCode", Json.str "contract")])) =
      ⟨500, ⟨false, none, some "Server configuration error: Missing API key."⟩⟩ :=
  ⟨rfl, audit_missing_key_500 _ _ _ rfl⟩

/-- C5: when the request body fails to parse as JSON, `req.json()` throws a
`SyntaxError` whose message (as produced by the JavaScript runtime) contains
"JSON", and the handler returns 400 with the JSON-format error envelope. -/
theorem audit_malformed_json_400 (env : Env) (oracle : String → CompletionResult)
    (m : String) (hkey : keyConfigured env = true)
    (hmsg : strIncludes m "JSON" = true) :
    POST env oracle (Except.error m) =
      ⟨400, ⟨false, none, some "Bad Request: Invalid JSON format in request body."⟩⟩ := by
  simp [POST, hkey, handleCatch, hmsg]

theorem audit_malformed_json_400_witness :
    keyConfigured ⟨some "k"⟩ = true ∧
    strIncludes "Unexpected end of JSON input" "JSON" = true ∧
    POST ⟨some "k"⟩ (fun _ => CompletionResult.ok (some "report"))
        (Except.error "Unexpected end of JSON input") =
      ⟨400, ⟨false, none, some "Bad Request: Invalid JSON format in request body."⟩⟩ :=
  ⟨rfl, by decide, audit_malformed_json_400 _ _ _ rfl (by decide)⟩

/-- C2: for every environment, completion-API behaviour and request body,
the handler returns a well-formed envelope: on `success = true` there are
results and no error string, on `success = false` there is an error string
and no results — never a raw exception or an empty body. -/
theorem audit_envelope_wellformed (env : Env) (oracle : String → CompletionResult)
    (body : Except String Json) :
    ((POST env oracle body).body.success = true ∧
      ((POST env oracle body).body.results).isSome = true ∧
      (POST env oracle body).body.error = none) ∨
    ((POST env oracle body).body.success = false ∧
      ((POST env oracle body).body.error).isSome = true ∧
      (POST env oracle body).body.results = none) := by
  unfold POST
  split
  · right; simp
  · cases body with
    | error m => exact Or.inr (handleCatch_fail _)
    | ok j =>
      cases hd : destructureContract j with
      | error m => simpa [hd] using Or.inr (handleCatch_fail (Thrown.err m))
      | ok v =>
        simp only [hd]
        split
        · right; simp
        · cases horacle : oracle (promptOf (strOf v)) with
          | ok c =>
            by_cases hc : contentFalsy c = true
            · simpa [horacle, hc] using
                Or.inr (handleCatch_fail (Thrown.err "Received empty response from AI analysis."))
            · left; simp [horacle, hc]
          | apiError st nm m =>
            simpa [horacle] using Or.inr (handleCatch_fail (Thrown.apiErr st nm m))
          | errorThrow m =>
            simpa [horacle] using Or.inr (handleCatch_fail (Thrown.err m))
          | otherThrow =>
            simpa [horacle] using Or.inr (handleCatch_fail Thrown.other)

/-- The branch condition of the validation check is true exactly when the
extracted `contractCode` is not a string with non-empty trim. -/
theorem invalid_cond (v : Option Json)
    (hinv : ∀ s : String, v = some (Json.str s) → jsTrim s = "") :
    (jsFalsy v || !jsTypeofString v || (jsTrim (strOf v) == "")) = true := by
  cases v with
  | none => rfl
  | some w =>
    cases w with
    | null => rfl
    | bool b => simp [jsFalsy, jsTypeofString]
    | num n => simp [jsFalsy, jsTypeofString]
    | str s => simp [jsFalsy, jsTypeofString, strOf, hinv s rfl]
    | arr xs => simp [jsFalsy, jsTypeofString]
    | obj fs => simp [jsFalsy, jsTypeofString]

/-- C1: for a configured key and a parsed body whose `contractCode` field is
a string with non-empty trim, if the completion API returns a first-choice
content that is a non-empty text `t`, the handler returns 200 with
`success: true` and `results.aiAudit` equal to `t` trimmed. -/
theorem audit_success_200 (env : Env) (oracle : String → CompletionResult)
    (fields : List (String × Json)) (code t : String)
    (hkey : keyConfigured env = true)
    (hfield : lookupLast fields "contractCode" = some (Json.str code))
    (hcode : jsTrim code ≠ "")
    (horacle : oracle (promptOf code) = CompletionResult.ok (some t))
    (ht : t ≠ "") :
    POST env oracle (Except.ok (Json.obj fields)) =
      ⟨200, ⟨true, some ⟨some (jsTrim t)⟩, none⟩⟩ := by
  have hc : code ≠ "" := fun h => hcode (by simp [h, jsTrim])
  simp [POST, hkey, destructureContract, hfield, strOf, jsFalsy, jsTypeofString,
    horacle, contentFalsy, contentOf, hc, hcode, ht]

theorem audit_success_200_witness :
    keyConfigured ⟨some "k"⟩ = true ∧
    lookupLast [("contractCode", Json.str "contract src")] "contractCode" =
      some (Json.str "contract src") ∧
    jsTrim "contract src" ≠ "" ∧
    POST ⟨some "k"⟩ (fun _ => CompletionResult.ok (some "  audit report  "))
        (Except.ok (Json.obj [("contractCode", Json.str "contract src")])) =
      ⟨200, ⟨true, some ⟨some (jsTrim "  audit report  ")⟩, none⟩⟩ :=
  ⟨rfl, rfl, by decide,
    audit_success_200 _ _ _ _ _ rfl rfl (by decide) rfl (by decide)⟩

/-- C4 counterexample: the body `null` is valid JSON with no `contractCode`
field, yet the handler returns 500, not 400 — destructuring `null` throws a
`TypeError`, which the catch block classifies as a generic `Error`. -/
theorem audit_null_body_not_400 :
    (POST ⟨some "k"⟩ (fun _ => CompletionResult.ok (some "report"))
        (Except.ok Json.null)).status = 500 ∧
    (POST ⟨some "k"⟩ (fun _ => CompletionResult.ok (some "report"))
        (Except.ok Json.null)).status ≠ 400 := by
  exact ⟨rfl, by decide⟩

/-- C4 (amended): for a configured key and a parsed body that is a JSON value
other than `null` whose `contractCode` field is missing, not a string, or a
string that is empty after trimming, the handler returns 400 with the
missing-or-invalid error envelope (whose message mentions missing/invalid
input). -/
theorem audit_invalid_contract_400 (env : Env) (oracle : String → CompletionResult)
    (j : Json) (hkey : keyConfigured env = true) (hnull : j ≠ Json.null)
    (hinv : ∀ s : String,
      destructureContract j = Except.ok (some (Json.str s)) → jsTrim s = "") :
    POST env oracle (Except.ok j) =
      ⟨400, ⟨false, none,
        some "Bad Request: Missing or invalid contractCode in request body."⟩⟩ ∧
    strIncludes "Bad Request: Missing or invalid contractCode in request body."
      "Missing or invalid" = true := by
  refine ⟨?_, by decide⟩
  cases j with
  | null => exact absurd rfl hnull
  | bool b => simp [POST, hkey, destructureContract, jsFalsy]
  | num n => simp [POST, hkey, destructureContract, jsFalsy]
  | str s => simp [POST, hkey, destructureContract, jsFalsy]
  | arr xs => simp [POST, hkey, destructureContract, jsFalsy]
  | obj fields =>
    have h400 := invalid_cond (lookupLast fields "contractCode")
      (fun s hs => hinv s (by simp [destructureContract, hs]))
    simp [POST, hkey, destructureContract, h400]

theorem audit_invalid_contract_400_witness :
    keyConfigured ⟨some "k"⟩ = true ∧
    (Json.obj [("contractCode", Json.str "   ")] ≠ Json.null) ∧
    (POST ⟨some "k"⟩ (fun _ => CompletionResult.ok (some "report"))
        (Except.ok (Json.obj [("contractCode", Json.str "   ")])) =
      ⟨400, ⟨false, none,
        some "Bad Request: Missing or invalid contractCode in request body."⟩⟩ ∧
    strIncludes "Bad Request: Missing or invalid contractCode in request body."
      "Missing or invalid" = true) :=
  ⟨rfl, fun h => Json.noConfusion h,
    audit_invalid_contract_400 _ _ _ rfl (fun h => Json.noConfusion h)
      (fun s hs => by
        simp [destructureContract, lookupLast] at hs
        subst hs
        decide)⟩

/-- C6: when the completion call throws a structured `OpenAI.APIError` with
status `st` (absent or a genuine non-zero HTTP status), name and message,
the handler responds with that status (500 when absent) and the error string
"OpenAI API Error: <status> <name> <message>". -/
theorem audit_api_error_propagates (env : Env) (oracle : String → CompletionResult)
    (fields : List (String × Json)) (code nm m : String) (st : Option Nat)
    (hkey : keyConfigured env = true)
    (hfield : lookupLast fields "contractCode" = some (Json.str code))
    (hcode : jsTrim code ≠ "")
    (horacle : oracle (promptOf code) = CompletionResult.apiError st nm m)
    (hst : st ≠ some 0) :
    POST env oracle (Except.ok (Json.obj fields)) =
      ⟨st.getD 500,
        ⟨false, none,
          some ("OpenAI API Error: " ++ showStatus st ++ " " ++ nm ++ " " ++ m)⟩⟩ := by
  have hc : code ≠ "" := fun h => hcode (by simp [h, jsTrim])
  have hstat : jsOrStatus st = st.getD 500 := by
    cases st with
    | none => rfl
    | some n =>
      have hn : ¬ n = 0 := fun h => hst (by simp [h])
      simp [jsOrStatus, hn]
  simp [POST, hkey, destructureContract, hfield, strOf, jsFalsy, jsTypeofString,
    horacle, handleCatch, hstat, hc, hcode]

theorem audit_api_error_propagates_witness :
    keyConfigured ⟨some "k"⟩ = true ∧
    jsTrim "contract" ≠ "" ∧
    (some 429 : Option Nat) ≠ some 0 ∧
    POST ⟨some "k"⟩
        (fun _ => CompletionResult.apiError (some 429) "APIError" "Rate limit reached")
        (Except.ok (Json.obj [("contractCode", Json.str "contract")])) =
      ⟨(some 429 : Option Nat).getD 500,
        ⟨false, none,
          some ("OpenAI API Error: " ++ showStatus (some 429) ++ " " ++ "APIError" ++
            " " ++ "Rate limit reached")⟩⟩ ∧
    strIncludes ("OpenAI API Error: " ++ showStatus (some 429) ++ " " ++ "APIError" ++
      " " ++ "Rate limit reached") "429" = true :=
  ⟨rfl, by decide, by decide,
    audit_api_error_propagates _ _ _ _ _ _ _ rfl rfl (by decide) rfl (by decide),
    by decide⟩

/-- C7: when the completion call succeeds but the first choice's content is
missing or the empty string, the handler throws internally and returns 500
with the generic empty-response error envelope, not a success with an empty
report. -/
theorem audit_empty_completion_500 (env : Env) (oracle : String → CompletionResult)
    (fields : List (String × Json)) (code : String) (c : Option String)
    (hkey : keyConfigured env = true)
    (hfield : lookupLast fields "contractCode" = some (Json.str code))
    (hcode : jsTrim code ≠ "")
    (horacle : oracle (promptOf code) = CompletionResult.ok c)
    (hc : c = none ∨ c = some "") :
    POST env oracle (Except.ok (Json.obj fields)) =
      ⟨500, ⟨false, none,
        some "Internal Server Error: Received empty response from AI analysis."⟩⟩ := by
  have hcf : contentFalsy c = true := by
    rcases hc with h | h <;> simp [h, contentFalsy]
  have hc2 : code ≠ "" := fun h => hcode (by simp [h, jsTrim])
  simp [POST, hkey, destructureContract, hfield, strOf, jsFalsy, jsTypeofString,
    horacle, hcf, handleCatch, hc2, hcode]

theorem audit_empty_completion_500_witness :
    keyConfigured ⟨some "k"⟩ = true ∧
    jsTrim "contract" ≠ "" ∧
    ((none : Option String) = none ∨ (none : Option String) = some "") ∧
    POST ⟨some "k"⟩ (fun _ => CompletionResult.ok none)
        (Except.ok (Json.obj [("contractCode", Json.str "contract")])) =
      ⟨500, ⟨false, none,
        some "Internal Server Error: Received empty response from AI analysis."⟩⟩ :=
  ⟨rfl, by decide, Or.inl rfl,
    audit_empty_completion_500 _ _ _ _ _ rfl rfl (by decide) rfl (Or.inl rfl)⟩

/-- C8: the prompt sent to the completion API is the fixed template with the
single substitution point — the head and tail around the contract text are
request-independent constants, the contract text occurs verbatim in the
prompt, and the substitution point sits inside the ```solidity fenced code
block. -/
theorem audit_prompt_template (code : String) :
    promptOf code = promptHead ++ code ++ promptTail ∧
    strIncludes (promptOf code) code = true ∧
    endsWithStr promptHead "```solidity\n        " = true ∧
    startsWithStr promptTail "\n        ```" = true := by
  refine ⟨rfl, ?_, by decide, by decide⟩
  show occursInL code.toList (promptOf code).toList = true
  have h : (promptOf code).toList =
      promptHead.toList ++ code.toList ++ promptTail.toList := by
    simp [promptOf, toList_append]
  rw [h]
  exact occursInL_middle _ _ _

/-- C9: the handler is deterministic — two invocations with equal
environment, equal completion-API behaviour and equal request bodies yield
equal status codes and equal response envelopes. -/
theorem audit_deterministic (e₁ e₂ : Env) (o₁ o₂ : String → CompletionResult)
    (b₁ b₂ : Except String Json) (he : e₁ = e₂) (ho : o₁ = o₂) (hb : b₁ = b₂) :
    POST e₁ o₁ b₁ = POST e₂ o₂ b₂ := by
  rw [he, ho, hb]

theorem audit_deterministic_witness :
    (⟨some "k"⟩ : Env) = ⟨some "k"⟩ ∧
    POST ⟨some "k"⟩ (fun _ => CompletionResult.ok (some "report"))
        (Except.ok (Json.obj [("contractCode", Json.str "c")])) =
      POST ⟨some "k"⟩ (fun _ => CompletionResult.ok (some "report"))
        (Except.ok (Json.obj [("contractCode", Json.str "c")])) :=
  ⟨rfl, audit_deterministic _ _ _ _ _ _ rfl rfl rfl⟩

/-- C10: when the completion returns a non-empty, all-whitespace first-choice
content, the emptiness check (applied before trimming) does not fire: the
handler returns 200 with `success: true` and `results.aiAudit` equal to the
empty string. -/
theorem audit_whitespace_content_200 (env : Env) (oracle : String → CompletionResult)
    (fields : List (String × Json)) (code s : String)
    (hkey : keyConfigured env = true)
    (hfield : lookupLast fields "contractCode" = some (Json.str code))
    (hcode : jsTrim code ≠ "")
    (horacle : oracle (promptOf code) = CompletionResult.ok (some s))
    (hs : s ≠ "") (hws : jsTrim s = "") :
    POST env oracle (Except.ok (Json.obj fields)) =
      ⟨200, ⟨true, some ⟨some ""⟩, none⟩⟩ := by
  have hc : code ≠ "" := fun h => hcode (by simp [h, jsTrim])
  simp [POST, hkey, destructureContract, hfield, strOf, jsFalsy, jsTypeofString,
    horacle, contentFalsy, contentOf, hc, hcode, hs, hws]

theorem audit_whitespace_content_200_witness :
    keyConfigured ⟨some "k"⟩ = true ∧
    jsTrim "contract" ≠ "" ∧
    ("   " : String) ≠ "" ∧
    jsTrim "   " = "" ∧
    POST ⟨some "k"⟩ (fun _ => CompletionResult.ok (some "   "))
        (Except.ok (Json.obj [("contractCode", Json.str "contract")])) =
      ⟨200, ⟨true, some ⟨some ""⟩, none⟩⟩ :=
  ⟨rfl, by decide, by decide, by decide,
    audit_whitespace_content_200 _ _ _ _ _ rfl rfl (by decide) rfl (by decide)
      (by decide)⟩
